import Mathlib

/-!
Shallow embedding of `sensors.py` (ESP32 telemetry node): the HC-SR04
ultrasonic driver, the `AnalogReader` bucket/normalization pipeline, and
the telemetry loop in `start()`.  Python floats are modelled as `ℚ`
(all values reachable from integer ADC raws stay far from the
breakpoints, so rational and IEEE-double comparisons agree), machine
integers as `ℤ`, and Python exceptions as explicit `Except` values.
-/

instance {ε α : Type} [DecidableEq ε] [DecidableEq α] : DecidableEq (Except ε α)
  | .ok a, .ok b => decidable_of_iff (a = b) (by simp)
  | .ok _, .error _ => .isFalse (by simp)
  | .error _, .ok _ => .isFalse (by simp)
  | .error a, .error b => decidable_of_iff (a = b) (by simp)

/-- Python exception argument of an `OSError`: either an errno payload
(`ex.args[0]`) or the `OSError('Out of range')` raised by the driver. -/
inductive OSArg where
  | errno (n : Nat)
  | outOfRange
deriving DecidableEq, Repr

/-- The Python exception classes that appear in `sensors.py`. -/
inductive PyExc where
  | os (a : OSArg)
  | indexError
  | keyError
  | attributeError
  | valueError
  | keyboardInterrupt
deriving DecidableEq, Repr

namespace HCSR04

/-- `HCSR04._send_pulse_and_wait` (sensors.py:35-52): the low-level
`machine.time_pulse_us` outcome is either a pulse width or an `OSError`
errno.  Errno 110 (ETIMEDOUT) is re-raised as `OSError('Out of range')`;
any other `OSError` is re-raised unchanged. -/
def send_pulse_and_wait (low : Except Nat ℤ) : Except PyExc ℤ :=
  match low with
  | .ok t => .ok t
  | .error e =>
      if e = 110 then .error (.os .outOfRange) else .error (.os (.errno e))

/-- `HCSR04.distance_mm` (sensors.py:54-66): `mm = pulse_time * 100 // 582`
(Python floor division). -/
def distance_mm (low : Except Nat ℤ) : Except PyExc ℤ :=
  (send_pulse_and_wait low).map (fun pulse_time => Int.fdiv (pulse_time * 100) 582)

/-- `HCSR04.distance_cm` (sensors.py:68-80): `cms = (pulse_time / 2) / 29.1`. -/
def distance_cm (low : Except Nat ℤ) : Except PyExc ℚ :=
  (send_pulse_and_wait low).map (fun pulse_time => ((pulse_time : ℚ) / 2) / (29.1 : ℚ))

end HCSR04

namespace AnalogReader

/-- The bucket labels of `read_sensor_values` (sensors.py:91). -/
def buckets : List ℚ := [0, 20, 40, 80, 160, 220]

/-- The fixed breakpoints zipped against `buckets` (sensors.py:99,106). -/
def breakpoints : List ℚ := [0.0, 0.2, 0.4, 0.6, 0.8, 1.0]

/-- The common bucket-mapping expression of `read_light_sensor` and
`read_voltage_sensor` (sensors.py:99,106):
`max([n for n, p in zip(buckets, breakpoints) if raw >= p] + [0])`.
The appended `[0]` makes the list nonempty and all labels are ≥ 0, so
Python's `max` over it equals a fold of `max` starting from 0. -/
def bucket (raw : ℚ) : ℚ :=
  ((((buckets.zip breakpoints).filter (fun (np : ℚ × ℚ) => np.2 ≤ raw)).map Prod.fst) ++ [0]).foldl max 0

/-- `read_light_sensor` (sensors.py:96-101): the ADC read either yields a
raw register value or raises `OSError`; on success normalize by
`(raw - 335) / 30483` and bucket, on `OSError` return `-1.0`. -/
def read_light_sensor (r : Except Unit ℤ) : ℚ :=
  match r with
  | .ok raw => bucket (((raw : ℚ) - 335) / 30483)
  | .error _ => -1

/-- `read_voltage_sensor` (sensors.py:103-108): normalization
`(raw - 5169) / 27067`, same bucket map, `-1.0` on `OSError`. -/
def read_voltage_sensor (r : Except Unit ℤ) : ℚ :=
  match r with
  | .ok raw => bucket (((raw : ℚ) - 5169) / 27067)
  | .error _ => -1

/-- `read_other_sensor` (sensors.py:110-112): raw value unmodified,
`-1.0` on `OSError`. -/
def read_other_sensor (r : Except Unit ℤ) : ℚ :=
  match r with
  | .ok raw => (raw : ℚ)
  | .error _ => -1

/-- The three role queues `light`, `voltage`, `other`
(sensors.py:92-94). -/
structure Queues where
  light : List ℚ
  voltage : List ℚ
  other : List ℚ
deriving DecidableEq, Repr

/-- One enumerate-loop over a device's layout slice
(sensors.py:114-117 and 119-122): channel `i` carries the `i`-th layout
character; `'l'` appends to `light`, `'v'` to `voltage`, anything else to
`other`, preserving physical read order within each queue. -/
def acquireChannels (read : Nat → Except Unit ℤ) : List Char → Nat → Queues
  | [], _ => ⟨[], [], []⟩
  | c :: cs, i =>
      let rest := acquireChannels read cs (i + 1)
      if c = 'l' then ⟨read_light_sensor (read i) :: rest.light, rest.voltage, rest.other⟩
      else if c = 'v' then ⟨rest.light, read_voltage_sensor (read i) :: rest.voltage, rest.other⟩
      else ⟨rest.light, rest.voltage, read_other_sensor (read i) :: rest.other⟩

/-- Both acquisition loops of `read_sensor_values` (sensors.py:114-122):
`layout[:4]` is read on `adc_1`, `layout[4:]` on `adc_2`, appending into
the shared role queues. -/
def acquireAll (readA readB : Nat → Except Unit ℤ) (layout : List Char) : Queues :=
  let qA := acquireChannels readA (layout.take 4) 0
  let qB := acquireChannels readB (layout.drop 4) 0
  ⟨qA.light ++ qB.light, qA.voltage ++ qB.voltage, qA.other ++ qB.other⟩

/-- The re-emission loop of `read_sensor_values` (sensors.py:124-128):
for each requested role-tag pop the head of that role's queue, or `0.0`
when the queue is exhausted. -/
def reassemble : List Char → Queues → List ℚ
  | [], _ => []
  | o :: os, q =>
      if o = 'l' then
        match q.light with
        | [] => 0 :: reassemble os ⟨[], q.voltage, q.other⟩
        | x :: xs => x :: reassemble os ⟨xs, q.voltage, q.other⟩
      else if o = 'v' then
        match q.voltage with
        | [] => 0 :: reassemble os ⟨q.light, [], q.other⟩
        | x :: xs => x :: reassemble os ⟨q.light, xs, q.other⟩
      else
        match q.other with
        | [] => 0 :: reassemble os ⟨q.light, q.voltage, []⟩
        | x :: xs => x :: reassemble os ⟨q.light, q.voltage, xs⟩

/-- `AnalogReader.read_sensor_values` (sensors.py:90-130). -/
def read_sensor_values (readA readB : Nat → Except Unit ℤ) (layout order : List Char) : List ℚ :=
  reassemble order (acquireAll readA readB layout)

/-- Modelled from the spec's description of the bucket map, for the
refinement comparison with `bucket`: "the result is the largest bucket
label whose breakpoint is ≤ the normalized fraction; if the fraction is
below all breakpoints, the result is 0"  (the fractions `1/5 … 4/5` are
exactly the spec's breakpoints `0.2 … 0.8`). -/
def specBucket (f : ℚ) : ℚ :=
  if 1 ≤ f then 220
  else if 4/5 ≤ f then 160
  else if 3/5 ≤ f then 80
  else if 2/5 ≤ f then 40
  else if 1/5 ≤ f then 20
  else 0

end AnalogReader

namespace Telemetry

/-- The JSON body of a reply: `body["endLoop"]` is `none` when the key is
missing (Python then raises `KeyError`). -/
structure JsonBody where
  endLoop : Option Bool
deriving DecidableEq, Repr

/-- A `urequests` response object: calling `.json()` either parses a body
or raises. -/
structure Reply where
  jsonBody : Except PyExc JsonBody
deriving DecidableEq, Repr

/-- The external world of one iteration of the `while True` loop in
`start` (sensors.py:192-220): each ranger's low-level pulse outcome, the
two ADCs' per-channel outcomes, the layout string, `wlan.isconnected()`
as observed at sensors.py:200, the outcome of `urequests.post`, and
`wlan.isconnected()` as observed in the handler at sensors.py:214. -/
structure CycleEnv where
  botId : ℤ
  layout : List Char
  pulses : List (Except Nat ℤ)
  readA : Nat → Except Unit ℤ
  readB : Nat → Except Unit ℤ
  connected : Bool
  postResult : Except PyExc Reply
  connectedAfterError : Bool

/-- The list comprehension `[ds.distance_mm() for ds in distance_sensors[:2]]`
(sensors.py:194): distances are measured sequentially and the first
exception aborts the whole comprehension. -/
def measureDistances : List (Except Nat ℤ) → Except PyExc (List ℤ)
  | [] => .ok []
  | p :: ps =>
      match HCSR04.distance_mm p with
      | .error e => .error e
      | .ok d => (measureDistances ps).map (fun ds => d :: ds)

/-- The construction of `data` (sensors.py:194-195):
`[bot_id] + [ds.distance_mm() for ds in distance_sensors[:2]] + ads.read_sensor_values("vvll_")`.
This happens before the inner `try` of sensors.py:198. -/
def buildData (env : CycleEnv) : Except PyExc (List ℚ) :=
  (measureDistances (env.pulses.take 2)).map (fun ds =>
    ((env.botId : ℚ) :: ds.map (fun d => (d : ℚ)))
      ++ AnalogReader.read_sensor_values env.readA env.readB env.layout
          ['v', 'v', 'l', 'l', '_'])

/-- The body of the inner `try` (sensors.py:198-210): `response` starts as
`None`; the post runs only if `wlan.isconnected()`; `response.json()` on a
`None` response raises `AttributeError`; a missing `endLoop` key raises
`KeyError`.  The result is the truth value of `body["endLoop"]`. -/
def innerTry (env : CycleEnv) : Except PyExc Bool :=
  if env.connected then
    match env.postResult with
    | .error e => .error e
    | .ok reply =>
        match reply.jsonBody with
        | .error e => .error e
        | .ok body =>
            match body.endLoop with
            | none => .error .keyError
            | some b => .ok b
  else .error .attributeError

/-- The exception classes caught by `except (IndexError, KeyError, OSError)`
(sensors.py:211).  `OSError('Out of range')` is an `OSError` instance and
is caught; `AttributeError` and `ValueError` are not. -/
def caughtByInner : PyExc → Bool
  | .os _ => true
  | .indexError => true
  | .keyError => true
  | _ => false

/-- Result of one loop iteration: continue to the next cycle (recording
whether the handler re-ran `wlan.connect`), `break` out of the loop, or
propagate an exception out of the `while` loop. -/
inductive CycleOutcome where
  | next (reconnected : Bool)
  | stop
  | raised (e : PyExc)
deriving DecidableEq, Repr

/-- One iteration of the `while True` loop (sensors.py:192-220).  The
`data` construction runs outside the inner `try`, so an exception there
propagates directly; exceptions inside the `try` are caught only if they
match `(IndexError, KeyError, OSError)`, in which case the handler
reconnects exactly when `wlan.isconnected()` is false. -/
def runCycle (env : CycleEnv) : CycleOutcome :=
  match buildData env with
  | .error e => .raised e
  | .ok _ =>
      match innerTry env with
      | .ok true => .stop
      | .ok false => .next false
      | .error e =>
          if caughtByInner e then .next (!env.connectedAfterError) else .raised e

/-- How the `while True` loop itself ends: `break` (sensors.py:210), an
exception escaping the loop, or the supplied fuel running out (the real
loop is infinite). -/
inductive LoopResult where
  | stopped
  | raised (e : PyExc)
  | fuelOut
deriving DecidableEq, Repr

/-- The `while True` loop of `start` (sensors.py:192-220), driven by one
`CycleEnv` per iteration. -/
def runLoop : List CycleEnv → LoopResult
  | [] => .fuelOut
  | env :: rest =>
      match runCycle env with
      | .stop => .stopped
      | .raised e => .raised e
      | .next _ => runLoop rest

/-- How `start` as a whole ends. -/
structure StartOutcome where
  interrupted : Bool
  uncaught : Option PyExc
  linkReleases : Nat
deriving DecidableEq, Repr

/-- The outer `try`/`except KeyboardInterrupt` of `start`
(sensors.py:187, 221-224): only `KeyboardInterrupt` is caught, and the
`wlan.disconnect(); wlan.active(False)` release pair runs only there and
only if `wlan.isconnected()` still holds; any other exception escapes
`start` with no release, and a `break` ends `start` with no release. -/
def startModel (envs : List CycleEnv) (connectedAtEnd : Bool) : StartOutcome :=
  match runLoop envs with
  | .raised .keyboardInterrupt => ⟨true, none, if connectedAtEnd then 1 else 0⟩
  | .raised e => ⟨false, some e, 0⟩
  | _ => ⟨false, none, 0⟩

/-- An ADC world where every channel read succeeds with the channel
index as raw value. -/
def okReads : Nat → Except Unit ℤ := fun i => .ok (i : ℤ)

/-- A cycle in which everything succeeds and the server replies
`{"endLoop": true}`. -/
def envStop : CycleEnv where
  botId := 7
  layout := ['v', 'v', 'l', 'l', '_']
  pulses := [.ok 582, .ok 1164]
  readA := okReads
  readB := okReads
  connected := true
  postResult := .ok ⟨.ok ⟨some true⟩⟩
  connectedAfterError := true

/-- A cycle in which the first ranger's echo wait reports errno 110
(ETIMEDOUT) while everything else would succeed. -/
def envTimeout : CycleEnv where
  botId := 7
  layout := ['v', 'v', 'l', 'l', '_']
  pulses := [.error 110, .ok 1164]
  readA := okReads
  readB := okReads
  connected := true
  postResult := .ok ⟨.ok ⟨some false⟩⟩
  connectedAfterError := true

/-- A cycle in which the link reports disconnected at sensors.py:200, so
the post is skipped and `response` stays `None`. -/
def envDisconnected : CycleEnv where
  botId := 7
  layout := ['v', 'v', 'l', 'l', '_']
  pulses := [.ok 582, .ok 1164]
  readA := okReads
  readB := okReads
  connected := false
  postResult := .ok ⟨.ok ⟨some false⟩⟩
  connectedAfterError := false

/-- A cycle in which the post raises a low-level `OSError` (errno 104)
and the link is found disconnected in the handler. -/
def envTransient : CycleEnv where
  botId := 7
  layout := ['v', 'v', 'l', 'l', '_']
  pulses := [.ok 582, .ok 1164]
  readA := okReads
  readB := okReads
  connected := true
  postResult := .error (.os (.errno 104))
  connectedAfterError := false

end Telemetry

/-! ## Helper lemmas -/

/-- The source's filtered-max bucket expression agrees with the spec's
largest-breakpoint step function. -/
theorem bucket_eq_specBucket (x : ℚ) : AnalogReader.bucket x = AnalogReader.specBucket x := by
  have hbp : AnalogReader.breakpoints = [0, 1/5, 2/5, 3/5, 4/5, 1] := by
    norm_num [AnalogReader.breakpoints]
  rcases le_or_lt 1 x with h5 | h5
  · have h4 : (4/5 : ℚ) ≤ x := by linarith
    have h3 : (3/5 : ℚ) ≤ x := by linarith
    have h2 : (2/5 : ℚ) ≤ x := by linarith
    have h1 : (1/5 : ℚ) ≤ x := by linarith
    have h0 : (0 : ℚ) ≤ x := by linarith
    simp [AnalogReader.bucket, AnalogReader.specBucket, AnalogReader.buckets, hbp, h0, h1,
      h2, h3, h4, h5, List.filter_cons, List.filter_nil, decide_eq_true_eq] <;>
    split_ifs <;> first | linarith | norm_num [max_def]
  have h5' : ¬ (1 : ℚ) ≤ x := not_le.mpr h5
  rcases le_or_lt (4/5 : ℚ) x with h4 | h4
  · have h3 : (3/5 : ℚ) ≤ x := by linarith
    have h2 : (2/5 : ℚ) ≤ x := by linarith
    have h1 : (1/5 : ℚ) ≤ x := by linarith
    have h0 : (0 : ℚ) ≤ x := by linarith
    simp [AnalogReader.bucket, AnalogReader.specBucket, AnalogReader.buckets, hbp, h0, h1,
      h2, h3, h4, h5', List.filter_cons, List.filter_nil, decide_eq_true_eq] <;>
    split_ifs <;> first | linarith | norm_num [max_def]
  have h4' : ¬ (4/5 : ℚ) ≤ x := not_le.mpr h4
  rcases le_or_lt (3/5 : ℚ) x with h3 | h3
  · have h2 : (2/5 : ℚ) ≤ x := by linarith
    have h1 : (1/5 : ℚ) ≤ x := by linarith
    have h0 : (0 : ℚ) ≤ x := by linarith
    simp [AnalogReader.bucket, AnalogReader.specBucket, AnalogReader.buckets, hbp, h0, h1,
      h2, h3, h4', h5', List.filter_cons, List.filter_nil, decide_eq_true_eq] <;>
    split_ifs <;> first | linarith | norm_num [max_def]
  have h3' : ¬ (3/5 : ℚ) ≤ x := not_le.mpr h3
  rcases le_or_lt (2/5 : ℚ) x with h2 | h2
  · have h1 : (1/5 : ℚ) ≤ x := by linarith
    have h0 : (0 : ℚ) ≤ x := by linarith
    simp [AnalogReader.bucket, AnalogReader.specBucket, AnalogReader.buckets, hbp, h0, h1,
      h2, h3', h4', h5', List.filter_cons, List.filter_nil, decide_eq_true_eq] <;>
    split_ifs <;> first | linarith | norm_num [max_def]
  have h2' : ¬ (2/5 : ℚ) ≤ x := not_le.mpr h2
  rcases le_or_lt (1/5 : ℚ) x with h1 | h1
  · have h0 : (0 : ℚ) ≤ x := by linarith
    simp [AnalogReader.bucket, AnalogReader.specBucket, AnalogReader.buckets, hbp, h0, h1,
      h2', h3', h4', h5', List.filter_cons, List.filter_nil, decide_eq_true_eq] <;>
    split_ifs <;> first | linarith | norm_num [max_def]
  have h1' : ¬ (1/5 : ℚ) ≤ x := not_le.mpr h1
  rcases le_or_lt 0 x with h0 | h0
  · simp [AnalogReader.bucket, AnalogReader.specBucket, AnalogReader.buckets, hbp, h0, h1',
      h2', h3', h4', h5', List.filter_cons, List.filter_nil, decide_eq_true_eq] <;>
    split_ifs <;> first | linarith | norm_num [max_def]
  have h0' : ¬ (0 : ℚ) ≤ x := not_le.mpr h0
  simp [AnalogReader.bucket, AnalogReader.specBucket, AnalogReader.buckets, hbp, h0', h1',
    h2', h3', h4', h5', List.filter_cons, List.filter_nil, decide_eq_true_eq] <;>
  split_ifs <;> first | linarith | norm_num [max_def]

/-- The spec-side step function is monotone. -/
theorem specBucket_mono {x y : ℚ} (h : x ≤ y) :
    AnalogReader.specBucket x ≤ AnalogReader.specBucket y := by
  unfold AnalogReader.specBucket
  split_ifs <;> linarith

/-- Re-emission produces one reading per requested role-tag. -/
theorem reassemble_length (order : List Char) :
    ∀ q : AnalogReader.Queues, (AnalogReader.reassemble order q).length = order.length := by
  induction order with
  | nil => intro _; rfl
  | cons o os ih =>
      rintro ⟨l, v, t⟩
      by_cases hl : o = 'l'
      · cases l <;> simp [AnalogReader.reassemble, hl, ih]
      · by_cases hv : o = 'v'
        · cases v <;> simp [AnalogReader.reassemble, hl, hv, ih]
        · cases t <;> simp [AnalogReader.reassemble, hl, hv, ih]

/-- Re-emission from fully exhausted queues yields all zeros. -/
theorem reassemble_empty (order : List Char) :
    AnalogReader.reassemble order ⟨[], [], []⟩ = List.replicate order.length 0 := by
  induction order with
  | nil => rfl
  | cons o os ih =>
      by_cases hl : o = 'l'
      · simp [AnalogReader.reassemble, hl, ih, List.replicate]
      · by_cases hv : o = 'v'
        · simp [AnalogReader.reassemble, hl, hv, ih, List.replicate]
        · simp [AnalogReader.reassemble, hl, hv, ih, List.replicate]

/-- Acquisition adds exactly one queue entry per layout character. -/
theorem acquireChannels_length (read : Nat → Except Unit ℤ) (cs : List Char) :
    ∀ i, (AnalogReader.acquireChannels read cs i).light.length
      + (AnalogReader.acquireChannels read cs i).voltage.length
      + (AnalogReader.acquireChannels read cs i).other.length = cs.length := by
  induction cs with
  | nil => intro _; rfl
  | cons c cs ih =>
      intro i
      by_cases hl : c = 'l'
      · simp [AnalogReader.acquireChannels, hl]
        have := ih (i + 1)
        omega
      · by_cases hv : c = 'v'
        · simp [AnalogReader.acquireChannels, hl, hv]
          have := ih (i + 1)
          omega
        · simp [AnalogReader.acquireChannels, hl, hv]
          have := ih (i + 1)
          omega

/-- A successfully decoded reply requires the whole reporting chain: the
link connected at the check, a successful post, a parsed body, and an
`endLoop` key. -/
theorem innerTry_ok (env : Telemetry.CycleEnv) (b : Bool)
    (h : Telemetry.innerTry env = .ok b) :
    env.connected = true
      ∧ ∃ r : Telemetry.Reply, env.postResult = .ok r
          ∧ ∃ body : Telemetry.JsonBody, r.jsonBody = .ok body ∧ body.endLoop = some b := by
  unfold Telemetry.innerTry at h
  split at h
  · rename_i hc
    refine ⟨by simpa using hc, ?_⟩
    split at h
    · simp at h
    · rename_i r hp
      refine ⟨r, hp, ?_⟩
      split at h
      · simp at h
      · rename_i body hj
        refine ⟨body, hj, ?_⟩
        split at h
        · simp at h
        · rename_i b' he
          simp only [Except.ok.injEq] at h
          rw [he, h]
  · simp at h

/-- A cycle ends in `break` only via a decoded `endLoop = true` reply. -/
theorem runCycle_stop (env : Telemetry.CycleEnv)
    (h : Telemetry.runCycle env = .stop) : Telemetry.innerTry env = .ok true := by
  unfold Telemetry.runCycle at h
  split at h
  · simp at h
  · split at h
    · rename_i hi
      exact hi
    · simp at h
    · split at h <;> simp at h

/-- A stopped loop contains a cycle that ended in `break`. -/
theorem runLoop_stopped_of (envs : List Telemetry.CycleEnv)
    (h : Telemetry.runLoop envs = .stopped) :
    ∃ env ∈ envs, Telemetry.runCycle env = .stop := by
  induction envs with
  | nil => exact absurd h (by simp [Telemetry.runLoop])
  | cons env rest ih =>
      rw [Telemetry.runLoop] at h
      rcases hc : Telemetry.runCycle env with b | _ | e
      · rw [hc] at h
        rcases ih h with ⟨e', he', hs⟩
        exact ⟨e', by simp [he'], hs⟩
      · exact ⟨env, by simp, hc⟩
      · rw [hc] at h; exact absurd h (by simp)

/-! ## Claims -/

/-- C1: for every pulse time `t ≥ 0`, the integer accessor returns exactly
`t * 100 / 582` with truncating integer division, and the floating
accessor returns `(t / 2) / 29.1`; both are functions of the pulse width
alone. -/
theorem c1_distance_conversions (t : ℤ) (h : 0 ≤ t) :
    HCSR04.distance_mm (.ok t) = .ok (Int.tdiv (t * 100) 582)
    ∧ HCSR04.distance_cm (.ok t) = .ok (((t : ℚ) / 2) / (29.1 : ℚ)) := by
  refine ⟨?_, rfl⟩
  have hft : Int.fdiv (t * 100) 582 = Int.tdiv (t * 100) 582 :=
    Int.fdiv_eq_tdiv (mul_nonneg h (by norm_num)) (by norm_num)
  simp [HCSR04.distance_mm, HCSR04.send_pulse_and_wait, Except.map, hft]

/-- Witness for C1 at `t = 582`. -/
theorem c1_witness :
    HCSR04.distance_mm (.ok 582) = .ok (Int.tdiv (582 * 100) 582)
    ∧ HCSR04.distance_cm (.ok 582) = .ok (((582 : ℚ) / 2) / (29.1 : ℚ)) :=
  c1_distance_conversions 582 (by norm_num)

/-- C2: a measurement fails with the distinct error `OSError('Out of range')`
iff the low-level pulse wait reports ETIMEDOUT (errno 110); any other
low-level fault propagates unchanged; and a successful measurement of a
nonnegative pulse time is never negative. -/
theorem c2_ranger_errors :
    (∀ low : Except Nat ℤ,
        HCSR04.distance_mm low = .error (.os .outOfRange) ↔ low = .error 110)
    ∧ (∀ e : Nat, e ≠ 110 →
        HCSR04.distance_mm (.error e) = .error (.os (.errno e)))
    ∧ (∀ t d : ℤ, 0 ≤ t → HCSR04.distance_mm (.ok t) = .ok d → 0 ≤ d) := by
  refine ⟨?_, ?_, ?_⟩
  · intro low
    rcases low with e | t
    · by_cases he : e = 110 <;>
        simp [HCSR04.distance_mm, HCSR04.send_pulse_and_wait, Except.map, he]
    · simp [HCSR04.distance_mm, HCSR04.send_pulse_and_wait, Except.map]
  · intro e he
    simp [HCSR04.distance_mm, HCSR04.send_pulse_and_wait, Except.map, he]
  · intro t d ht hd
    simp [HCSR04.distance_mm, HCSR04.send_pulse_and_wait, Except.map] at hd
    exact hd ▸ Int.fdiv_nonneg (mul_nonneg ht (by norm_num)) (by norm_num)

/-- Witness for C2: errno 5 propagates, pulse 582 measures a nonnegative
100 mm. -/
theorem c2_witness :
    HCSR04.distance_mm (.error 5) = .error (.os (.errno 5))
    ∧ (0 : ℤ) ≤ 100 :=
  ⟨c2_ranger_errors.2.1 5 (by norm_num),
   c2_ranger_errors.2.2 582 100 (by norm_num) (by decide)⟩

/-- C3 counterexample: the light reading for raw value 9580 is 20, while
the claim states it is 40. -/
theorem c3_counterexample :
    AnalogReader.read_light_sensor (.ok 9580) = 20 ∧ (20 : ℚ) ≠ 40 := by
  constructor
  · simp only [AnalogReader.read_light_sensor, bucket_eq_specBucket]
    norm_num [AnalogReader.specBucket]
  · norm_num

/-- C3 (amended): every light reading is the spec's largest-breakpoint
bucket of `(raw − 335) / 30483` and every voltage reading that of
`(raw − 5169) / 27067`; light raw 30818 yields 220, raw 335 yields 0, and
raw 9580 yields 20. -/
theorem c3_bucketing (raw : ℤ) :
    AnalogReader.read_light_sensor (.ok raw)
        = AnalogReader.specBucket (((raw : ℚ) - 335) / 30483)
    ∧ AnalogReader.read_voltage_sensor (.ok raw)
        = AnalogReader.specBucket (((raw : ℚ) - 5169) / 27067)
    ∧ AnalogReader.read_light_sensor (.ok 30818) = 220
    ∧ AnalogReader.read_light_sensor (.ok 335) = 0
    ∧ AnalogReader.read_light_sensor (.ok 9580) = 20 := by
  refine ⟨?_, ?_, ?_, ?_, ?_⟩ <;>
    simp only [AnalogReader.read_light_sensor, AnalogReader.read_voltage_sensor,
      bucket_eq_specBucket] <;>
    norm_num [AnalogReader.specBucket]

/-- C9: bucketed readings are monotone in the raw value under both the
light and the voltage normalization. -/
theorem c9_bucket_monotone (r1 r2 : ℤ) (h : r1 < r2) :
    AnalogReader.read_light_sensor (.ok r1) ≤ AnalogReader.read_light_sensor (.ok r2)
    ∧ AnalogReader.read_voltage_sensor (.ok r1) ≤ AnalogReader.read_voltage_sensor (.ok r2) := by
  have hr : (r1 : ℚ) ≤ (r2 : ℚ) := by exact_mod_cast h.le
  constructor
  · simp only [AnalogReader.read_light_sensor, bucket_eq_specBucket]
    exact specBucket_mono ((div_le_div_iff_of_pos_right (by norm_num)).mpr (by linarith))
  · simp only [AnalogReader.read_voltage_sensor, bucket_eq_specBucket]
    exact specBucket_mono ((div_le_div_iff_of_pos_right (by norm_num)).mpr (by linarith))

/-- Witness for C9 at `r1 = 0 < r2 = 30818`. -/
theorem c9_witness :
    AnalogReader.read_light_sensor (.ok 0) ≤ AnalogReader.read_light_sensor (.ok 30818)
    ∧ AnalogReader.read_voltage_sensor (.ok 0) ≤ AnalogReader.read_voltage_sensor (.ok 30818) :=
  c9_bucket_monotone 0 30818 (by norm_num)

/-- C6: the Sensor Bank returns exactly one reading per entry of the
output order; each role-tag pops the next value of that role's queue in
order, and an exhausted queue yields `0.0` instead of failing. -/
theorem c6_output_order (readA readB : Nat → Except Unit ℤ) (layout order : List Char) :
    (AnalogReader.read_sensor_values readA readB layout order).length = order.length
    ∧ (∀ os x xs v t, AnalogReader.reassemble ('l' :: os) ⟨x :: xs, v, t⟩
        = x :: AnalogReader.reassemble os ⟨xs, v, t⟩)
    ∧ (∀ os x xs l t, AnalogReader.reassemble ('v' :: os) ⟨l, x :: xs, t⟩
        = x :: AnalogReader.reassemble os ⟨l, xs, t⟩)
    ∧ (∀ os c x xs l v, c ≠ 'l' → c ≠ 'v' →
        AnalogReader.reassemble (c :: os) ⟨l, v, x :: xs⟩
          = x :: AnalogReader.reassemble os ⟨l, v, xs⟩)
    ∧ AnalogReader.reassemble order ⟨[], [], []⟩ = List.replicate order.length 0 := by
  refine ⟨reassemble_length order _, ?_, ?_, ?_, reassemble_empty order⟩
  · intros; rfl
  · intros; rfl
  · intro os c x xs l v hcl hcv
    simp [AnalogReader.reassemble, hcl, hcv]

/-- Witness for C6's generic-role pop step at tag `'_'`. -/
theorem c6_witness :
    AnalogReader.reassemble ['_'] ⟨[], [], [(5 : ℚ)]⟩
      = (5 : ℚ) :: AnalogReader.reassemble [] ⟨[], [], []⟩ :=
  (c6_output_order Telemetry.okReads Telemetry.okReads [] []).2.2.2.1
    [] '_' 5 [] [] [] (by decide) (by decide)

/-- C7: a faulting channel reads as sentinel −1 in every role, and
acquisition never aborts: the role queues always hold one reading per
layout character; concretely, with 8 channels and exactly one faulting
read the remaining 7 channels still populate their queues. -/
theorem c7_channel_fault (readA readB : Nat → Except Unit ℤ) (layout : List Char) :
    (AnalogReader.read_light_sensor (.error ()) = -1
      ∧ AnalogReader.read_voltage_sensor (.error ()) = -1
      ∧ AnalogReader.read_other_sensor (.error ()) = -1)
    ∧ ((AnalogReader.acquireAll readA readB layout).light.length
        + (AnalogReader.acquireAll readA readB layout).voltage.length
        + (AnalogReader.acquireAll readA readB layout).other.length = layout.length)
    ∧ AnalogReader.acquireAll (fun i => if i = 1 then .error () else .ok 335)
        (fun i => .ok (1000 + (i : ℤ))) ['l', 'l', 'l', 'l', '_', '_', '_', '_']
        = ⟨[0, -1, 0, 0], [], [1000, 1001, 1002, 1003]⟩ := by
  refine ⟨⟨rfl, rfl, rfl⟩, ?_, ?_⟩
  · have hA := acquireChannels_length readA (layout.take 4) 0
    have hB := acquireChannels_length readB (layout.drop 4) 0
    have ht : (layout.take 4).length = min 4 layout.length := List.length_take 4 layout
    have hd : (layout.drop 4).length = layout.length - 4 := List.length_drop 4 layout
    simp only [AnalogReader.acquireAll, List.length_append]
    omega
  · have hb0 : AnalogReader.bucket 0 = 0 := by
      rw [bucket_eq_specBucket]; norm_num [AnalogReader.specBucket]
    simp [AnalogReader.acquireAll, AnalogReader.acquireChannels,
      AnalogReader.read_light_sensor, AnalogReader.read_other_sensor, hb0]

/-- C8: with layout `"vvll____"` and output order `"lvlv"` the Sensor Bank
returns exactly [light0, voltage0, light1, voltage1], i.e. the readings of
device A's channels 2, 0, 3, 1 in that order. -/
theorem c8_reassembly (readA readB : Nat → Except Unit ℤ) :
    AnalogReader.read_sensor_values readA readB
        ['v', 'v', 'l', 'l', '_', '_', '_', '_'] ['l', 'v', 'l', 'v']
      = [AnalogReader.read_light_sensor (readA 2),
         AnalogReader.read_voltage_sensor (readA 0),
         AnalogReader.read_light_sensor (readA 3),
         AnalogReader.read_voltage_sensor (readA 1)] := by
  rfl

/-- C4 (code bug): `data` is built at sensors.py:194 before the inner
`try` of sensors.py:198 begins, so when a ranger measurement raises
`OSError('Out of range')` the exception propagates uncaught (the outer
handler catches only `KeyboardInterrupt`): the cycle aborts, the loop
dies, and `start` escapes with the exception — no sentinel is
substituted and no record is assembled, contrary to the claim. -/
theorem c4_out_of_range_aborts :
    Telemetry.runCycle Telemetry.envTimeout = .raised (.os .outOfRange)
    ∧ Telemetry.runLoop [Telemetry.envTimeout, Telemetry.envStop]
        = .raised (.os .outOfRange)
    ∧ (Telemetry.startModel [Telemetry.envTimeout] true).uncaught
        = some (.os .outOfRange)
    ∧ (Telemetry.startModel [Telemetry.envTimeout] true).interrupted = false := by
  refine ⟨?_, ?_, ?_, ?_⟩ <;> decide

/-- C5 counterexample: a cycle whose reply carries `endLoop = true` makes
the loop terminate by `break`, yet the disconnect-then-deactivate release
pair is invoked zero times on that path, not exactly once. -/
theorem c5_counterexample :
    Telemetry.runLoop [Telemetry.envStop] = .stopped
    ∧ (Telemetry.startModel [Telemetry.envStop] true).linkReleases = 0 := by
  refine ⟨?_, ?_⟩ <;> decide

/-- C5 (amended): the loop breaks only when a successfully decoded reply
has `endLoop = true` (with the link connected at the check); the
disconnect-then-deactivate release runs exactly once when the loop ends by
`KeyboardInterrupt` with the link still connected, and zero times on every
other terminating path — in particular zero times on the `endLoop` path. -/
theorem c5_termination (envs : List Telemetry.CycleEnv) (conn : Bool) :
    ((Telemetry.startModel envs conn).linkReleases
        = if Telemetry.runLoop envs = .raised .keyboardInterrupt ∧ conn = true
          then 1 else 0)
    ∧ (Telemetry.runLoop envs = .stopped →
        ∃ env ∈ envs, Telemetry.runCycle env = .stop)
    ∧ (∀ env : Telemetry.CycleEnv, Telemetry.runCycle env = .stop →
        env.connected = true
          ∧ ∃ r : Telemetry.Reply, env.postResult = .ok r
              ∧ ∃ body : Telemetry.JsonBody, r.jsonBody = .ok body
                  ∧ body.endLoop = some true) := by
  refine ⟨?_, runLoop_stopped_of envs, ?_⟩
  · unfold Telemetry.startModel
    rcases h : Telemetry.runLoop envs with _ | e | _
    · simp
    · cases e <;> cases conn <;> simp
    · simp
  · intro env hstop
    exact innerTry_ok env true (runCycle_stop env hstop)

/-- Witness for C5 at the concrete `endLoop = true` cycle. -/
theorem c5_witness :
    (∃ env ∈ [Telemetry.envStop], Telemetry.runCycle env = .stop)
    ∧ (Telemetry.envStop.connected = true
        ∧ ∃ r : Telemetry.Reply, Telemetry.envStop.postResult = .ok r
            ∧ ∃ body : Telemetry.JsonBody, r.jsonBody = .ok body
                ∧ body.endLoop = some true) :=
  ⟨(c5_termination [Telemetry.envStop] true).2.1 (by decide),
   (c5_termination [Telemetry.envStop] true).2.2 Telemetry.envStop (by decide)⟩

/-- C10: in a cycle whose data build succeeds but whose link reports
disconnected at sensors.py:200, the post is skipped, `response` stays
`None`, and `response.json()` raises `AttributeError`, which is outside
the caught `(IndexError, KeyError, OSError)` set, so the loop terminates
with the uncaught exception instead of reconnecting; the reconnect path
is reached only when the post or the JSON access raises a caught
exception (and the link is then down). -/
theorem c10_disconnected_crash (env : Telemetry.CycleEnv) :
    ((Telemetry.buildData env).isOk = true → env.connected = false →
        Telemetry.innerTry env = .error .attributeError
        ∧ Telemetry.runCycle env = .raised .attributeError
        ∧ ∀ rest, Telemetry.runLoop (env :: rest) = .raised .attributeError)
    ∧ Telemetry.caughtByInner .attributeError = false
    ∧ (∀ e, Telemetry.caughtByInner e = true ↔
        (∃ a, e = .os a) ∨ e = .indexError ∨ e = .keyError)
    ∧ (Telemetry.runCycle env = .next true →
        ∃ e, Telemetry.innerTry env = .error e
          ∧ Telemetry.caughtByInner e = true
          ∧ env.connectedAfterError = false) := by
  refine ⟨?_, rfl, ?_, ?_⟩
  · intro hok hconn
    have hi : Telemetry.innerTry env = .error .attributeError := by
      unfold Telemetry.innerTry
      rw [if_neg (by simp [hconn])]
    have hc : Telemetry.runCycle env = .raised .attributeError := by
      unfold Telemetry.runCycle
      rcases hb : Telemetry.buildData env with e | d
      · rw [hb] at hok; simp [Except.isOk, Except.toBool] at hok
      · simp [hi, Telemetry.caughtByInner]
    exact ⟨hi, hc, fun rest => by simp [Telemetry.runLoop, hc]⟩
  · intro e
    cases e <;> simp [Telemetry.caughtByInner]
  · intro hnext
    unfold Telemetry.runCycle at hnext
    split at hnext
    · simp at hnext
    · split at hnext
      · simp at hnext
      · simp at hnext
      · rename_i e hi
        split at hnext
        · rename_i hcaught
          refine ⟨e, hi, hcaught, ?_⟩
          simp only [Telemetry.CycleOutcome.next.injEq] at hnext
          simpa using hnext.symm
        · simp at hnext

/-- Witness for C10: the disconnected cycle crashes with `AttributeError`;
the transient-`OSError` cycle takes the reconnect path. -/
theorem c10_witness :
    (Telemetry.innerTry Telemetry.envDisconnected = .error .attributeError
      ∧ Telemetry.runCycle Telemetry.envDisconnected = .raised .attributeError
      ∧ ∀ rest, Telemetry.runLoop (Telemetry.envDisconnected :: rest)
          = .raised .attributeError)
    ∧ ∃ e, Telemetry.innerTry Telemetry.envTransient = .error e
        ∧ Telemetry.caughtByInner e = true
        ∧ Telemetry.envTransient.connectedAfterError = false :=
  ⟨(c10_disconnected_crash Telemetry.envDisconnected).1 (by decide) (by decide),
   (c10_disconnected_crash Telemetry.envTransient).2.2.2 (by decide)⟩
